import Mathlib

/-!
Shallow embedding of the text-editor state machine from `src/main.rs`
(a single-document iced application). The dispatcher (`Editor.update`),
the async file operations (`load_file`, `pick_file`, `save_file`), and
the observable view fragments (status bar, save-button affordance,
keyboard subscription) are translated here as pure Lean functions.
External iced widgets (`text_editor::Content`, `text_editor::Action`)
are modelled just deeply enough to expose the interface the dispatcher
uses: `Content::with`, `Content::edit`, `Content::text`,
`Content::cursor_position`, and `Action::is_edit`.
-/

namespace TextEditor

/-- Filesystem paths (`PathBuf`); modelled as strings, so `Path::to_str`
always succeeds. -/
abbrev PathBuf := String

/-- Model of `std::io::ErrorKind`: the OS failure classification carried
by a read/write failure, used for display only. -/
inductive ErrorKind where
  | notFound
  | permissionDenied
  | otherKind
deriving DecidableEq, Repr

/-- The `Error` enum of `src/main.rs`: a cancelled dialog, or an I/O
failure carrying its `io::ErrorKind`. -/
inductive Error where
  | DialogClosed
  | IOFailed (kind : ErrorKind)
deriving DecidableEq, Repr

/-- Cursor motions of the external `text_editor` widget (not content
changes). -/
inductive Motion where
  | left
  | right
  | up
  | down
deriving DecidableEq, Repr

/-- Content-changing edit operations of the external `text_editor`
widget. -/
inductive EditOp where
  | insert (c : Char)
  | paste (s : List Char)
  | enter
  | backspace
  | delete
deriving DecidableEq, Repr

/-- Model of the external `iced::widget::text_editor::Action`: either a
content-changing edit (`edit`) or a pure cursor/selection/viewport
action. -/
inductive Action where
  | move (m : Motion)
  | select (m : Motion)
  | selectWord
  | selectLine
  | edit (e : EditOp)
  | click
  | drag
  | scroll
deriving DecidableEq, Repr

/-- `Action::is_edit`: true exactly for the content-changing `Edit`
actions, false for cursor moves, selection, clicks and scrolling. -/
def Action.is_edit : Action → Bool
  | .edit _ => true
  | _ => false

/-- Model of the external `text_editor::Content`: the buffer text as a
character sequence plus a cursor offset into it. -/
structure Content where
  text : List Char
  cursor : Nat
deriving DecidableEq, Repr

/-- `Content::with(text)` (Rust keyword name): fresh content with the
cursor at the start. -/
def Content.withText (s : List Char) : Content :=
  { text := s, cursor := 0 }

/-- Offset of the start of the line containing position `pos`. -/
def lineStartAt (t : List Char) (pos : Nat) : Nat :=
  pos - ((t.take pos).reverse.takeWhile (fun c => c ≠ '\n')).length

/-- Offset of the end of the line containing position `pos`. -/
def lineEndAt (t : List Char) (pos : Nat) : Nat :=
  pos + ((t.drop pos).takeWhile (fun c => c ≠ '\n')).length

/-- Cursor movement of the external widget. -/
def Content.moveCursor (c : Content) (m : Motion) : Nat :=
  match m with
  | .left => c.cursor - 1
  | .right => min (c.cursor + 1) c.text.length
  | .up =>
    let ls := lineStartAt c.text c.cursor
    if ls = 0 then 0
    else
      let pls := lineStartAt c.text (ls - 1)
      min (pls + (c.cursor - ls)) (ls - 1)
  | .down =>
    let le := lineEndAt c.text c.cursor
    if le = c.text.length then le
    else
      let ls := lineStartAt c.text c.cursor
      min (le + 1 + (c.cursor - ls)) (lineEndAt c.text (le + 1))

/-- Application of a content-changing edit at the cursor. -/
def Content.applyEdit (c : Content) (e : EditOp) : Content :=
  match e with
  | .insert ch =>
    { text := c.text.take c.cursor ++ [ch] ++ c.text.drop c.cursor,
      cursor := c.cursor + 1 }
  | .paste s =>
    { text := c.text.take c.cursor ++ s ++ c.text.drop c.cursor,
      cursor := c.cursor + s.length }
  | .enter =>
    { text := c.text.take c.cursor ++ ['\n'] ++ c.text.drop c.cursor,
      cursor := c.cursor + 1 }
  | .backspace =>
    if c.cursor = 0 then c
    else
      { text := c.text.take (c.cursor - 1) ++ c.text.drop c.cursor,
        cursor := c.cursor - 1 }
  | .delete =>
    { text := c.text.take c.cursor ++ c.text.drop (c.cursor + 1),
      cursor := c.cursor }

/-- `Content::edit(action)`: perform the action on the content. -/
def Content.edit (c : Content) (a : Action) : Content :=
  match a with
  | .move m => { c with cursor := c.moveCursor m }
  | .select m => { c with cursor := c.moveCursor m }
  | .selectWord => c
  | .selectLine => c
  | .edit e => c.applyEdit e
  | .click => c
  | .drag => c
  | .scroll => c

/-- `Content::cursor_position()`: 0-based (line, column) of the cursor. -/
def Content.cursor_position (c : Content) : Nat × Nat :=
  let before := c.text.take c.cursor
  (before.count '\n', (before.reverse.takeWhile (fun ch => ch ≠ '\n')).length)

/-- The `Editor` struct: buffer content, last error, document path,
dirty flag (field order as in `src/main.rs`). -/
structure Editor where
  content : Content
  error : Option Error
  path : Option PathBuf
  is_dirty : Bool
deriving DecidableEq, Repr

/-- The `Message` enum of `src/main.rs`: user intents plus the result
intents of the async file operations. -/
inductive Message where
  | Edit (action : Action)
  | FileOpened (result : Except Error (PathBuf × List Char))
  | Open
  | New
  | Save
  | FileSave (result : Except Error PathBuf)
deriving Repr

/-- The `Command` an `update` call returns: either no side effect or one
scheduled async file operation (the parameters captured by value at
scheduling time). -/
inductive Cmd where
  | none
  | performLoad (path : PathBuf)
  | performPick
  | performSave (path : Option PathBuf) (text : List Char)
deriving DecidableEq, Repr

/-- The compile-time `CARGO_MANIFEST_DIR` constant baked into
`default_file`. -/
def manifestDir : String := "CARGO_MANIFEST_DIR"

/-- `default_file()`: the hard-coded startup path
`{CARGO_MANIFEST_DIR}/src/main.rs`. -/
def default_file : PathBuf := manifestDir ++ "/src/main.rs"

/-- `Editor::new`: empty buffer, no path, no error, `is_dirty = true`,
and a scheduled load of the default file. -/
def Editor.new : Editor × Cmd :=
  ({ content := Content.withText [],
     error := none,
     path := none,
     is_dirty := true },
   Cmd.performLoad default_file)

/-- `Editor::update`: the dispatcher, one intent at a time. Each match
arm mirrors the corresponding arm in `src/main.rs` lines 58-99. -/
def Editor.update (self : Editor) (message : Message) : Editor × Cmd :=
  match message with
  | .Edit action =>
    ({ self with
        is_dirty := self.is_dirty || action.is_edit,
        content := self.content.edit action },
     Cmd.none)
  | .Open => (self, Cmd.performPick)
  | .FileOpened (.ok (path, content)) =>
    ({ self with
        path := some path,
        content := Content.withText content,
        error := none },
     Cmd.none)
  | .FileOpened (.error e) =>
    ({ self with is_dirty := false, error := some e }, Cmd.none)
  | .New =>
    ({ self with
        is_dirty := true,
        path := none,
        content := Content.withText [],
        error := none },
     Cmd.none)
  | .FileSave (.ok path) =>
    ({ self with path := some path, is_dirty := false }, Cmd.none)
  | .FileSave (.error e) =>
    ({ self with error := some e }, Cmd.none)
  | .Save => (self, Cmd.performSave self.path self.content.text)

/-- Process a list of messages in arrival order, discarding the
scheduled commands (trace semantics of the serial dispatcher). -/
def Editor.processAll (s : Editor) : List Message → Editor
  | [] => s
  | m :: ms => Editor.processAll (s.update m).1 ms

/-- `load_file(path)`: read the file as text; `readResult` is the
outcome of `tokio::fs::read_to_string`. Any read failure is folded into
`Error::IOFailed(kind)`. -/
def load_file (path : PathBuf) (readResult : Except ErrorKind (List Char)) :
    Except Error (PathBuf × List Char) :=
  match readResult with
  | .error kind => .error (Error.IOFailed kind)
  | .ok content => .ok (path, content)

/-- `pick_file()`: show the open dialog (`dialogResult`, `none` =
cancelled) then load the chosen file. Cancellation yields
`Error::DialogClosed` before any read happens. -/
def pick_file (dialogResult : Option PathBuf)
    (readResult : Except ErrorKind (List Char)) :
    Except Error (PathBuf × List Char) :=
  match dialogResult with
  | none => .error Error.DialogClosed
  | some path => load_file path readResult

/-- `save_file(path, text)`: resolve the target path (given path, else
save-dialog; cancelled dialog = `DialogClosed` before any write), then
write (`writeResult` is the outcome of `tokio::fs::write`, `some kind` =
failure) and succeed with the resolved path. -/
def save_file (path : Option PathBuf) (text : List Char)
    (dialogResult : Option PathBuf) (writeResult : Option ErrorKind) :
    Except Error PathBuf :=
  let resolved : Except Error PathBuf :=
    match path with
    | some p => .ok p
    | none =>
      match dialogResult with
      | some p => .ok p
      | none => .error Error.DialogClosed
  match resolved with
  | .error e => .error e
  | .ok p =>
    match writeResult with
    | some kind => .error (Error.IOFailed kind)
    | none => .ok p

/-- What the status-bar's left slot shows. -/
inductive Status where
  | errorText (kind : ErrorKind)
  | pathText (p : PathBuf)
  | newFilePlaceholder
deriving DecidableEq, Repr

/-- The status-bar computation of `Editor::view` (lines 126-134): an
`IOFailed` error is displayed as its text; otherwise the path, or the
new-file placeholder when there is no path. -/
def Editor.status (self : Editor) : Status :=
  match self.error with
  | some (Error.IOFailed kind) => Status.errorText kind
  | _ =>
    match self.path with
    | some p => Status.pathText p
    | none => Status.newFilePlaceholder

/-- The save button's message in `Editor::view` (line 107):
`self.is_dirty.then_some(Message::Save)` — offered only when dirty. -/
def Editor.save_button_message (self : Editor) : Option Message :=
  if self.is_dirty then some Message.Save else none

/-- Keyboard key codes relevant to the subscription. -/
inductive KeyCode where
  | S
  | otherKey
deriving DecidableEq, Repr

/-- Keyboard modifier state; only `command()` (ctrl/cmd) is consulted. -/
structure Modifiers where
  command : Bool
deriving DecidableEq, Repr

/-- `Editor::subscription` (lines 153-158): the key-press handler maps
cmd/ctrl+S to `Message::Save` and ignores everything else; the closure
captures nothing from `self`. -/
def Editor.subscription (_self : Editor) (key_code : KeyCode)
    (modifiers : Modifiers) : Option Message :=
  match key_code with
  | .S => if modifiers.command then some Message.Save else none
  | .otherKey => none

/-- A message that sets `is_dirty` to false in `Editor::update`:
exactly a successful save result or a failed open result. -/
def Message.clearsDirty : Message → Bool
  | .FileSave (.ok _) => true
  | .FileOpened (.error _) => true
  | _ => false

/-- A dirty state stays dirty across any message that is not a
successful save result or a failed open result. -/
theorem dirty_preserved (s : Editor) (m : Message)
    (hd : s.is_dirty = true) (hm : m.clearsDirty = false) :
    ((s.update m).1).is_dirty = true := by
  cases m with
  | Edit a => simp [Editor.update, hd]
  | FileOpened r =>
    cases r with
    | ok v => simpa [Editor.update] using hd
    | error e => simp [Message.clearsDirty] at hm
  | Open => simpa [Editor.update] using hd
  | New => simp [Editor.update]
  | Save => simpa [Editor.update] using hd
  | FileSave r =>
    cases r with
    | ok p => simp [Message.clearsDirty] at hm
    | error e => simpa [Editor.update] using hd

/-- A dirty state stays dirty across any trace free of successful save
results and failed open results. -/
theorem dirty_preserved_trace (s : Editor) (ms : List Message)
    (hd : s.is_dirty = true) (hms : ∀ m ∈ ms, m.clearsDirty = false) :
    (Editor.processAll s ms).is_dirty = true := by
  induction ms generalizing s with
  | nil => simpa [Editor.processAll] using hd
  | cons m ms ih =>
    have hm : m.clearsDirty = false := hms m (List.mem_cons_self m ms)
    have hrest : ∀ m' ∈ ms, m'.clearsDirty = false :=
      fun m' h => hms m' (List.mem_cons_of_mem m h)
    simpa [Editor.processAll] using
      ih ((s.update m).1) (dirty_preserved s m hd hm) hrest

/-- A sample state: clean, no error, associated with a path. -/
def cleanAssocState : Editor :=
  { content := Content.withText [],
    error := none,
    path := some "/tmp/a.txt",
    is_dirty := false }

/-- A sample state: dirty, no error, associated with a path. -/
def dirtyAssocState : Editor :=
  { content := Content.withText [],
    error := none,
    path := some "/tmp/a.txt",
    is_dirty := true }

/-- A sample state: dirty, no error, no path. -/
def dirtyNewState : Editor :=
  { content := Content.withText [],
    error := none,
    path := none,
    is_dirty := true }

/-- A sample state carrying an I/O error. -/
def ioErrState : Editor :=
  { content := Content.withText [],
    error := some (Error.IOFailed ErrorKind.notFound),
    path := none,
    is_dirty := false }

/-- A sample state carrying a dialog-closed error and a path. -/
def dialogErrState : Editor :=
  { content := Content.withText [],
    error := some Error.DialogClosed,
    path := some "/tmp/a.txt",
    is_dirty := false }

/-- C1 counterexample: the claim says a failed load leaves `dirty`
unchanged, but processing `FileOpened(Err(DialogClosed))` from a dirty
state sets `is_dirty` to false. -/
theorem C1_counterexample :
    dirtyAssocState.is_dirty = true ∧
    ((dirtyAssocState.update
      (Message.FileOpened (Except.error Error.DialogClosed))).1).is_dirty
      = false :=
  ⟨rfl, rfl⟩

/-- C1 (amended): a failed save leaves buffer, path and dirty unchanged
and only sets `last_error`; a failed load leaves buffer and path
unchanged and sets `last_error`, but additionally sets `dirty` to
false. -/
theorem C1_failure_frame (s : Editor) (e : Error) :
    ((s.update (Message.FileSave (Except.error e))).1).content = s.content ∧
    ((s.update (Message.FileSave (Except.error e))).1).path = s.path ∧
    ((s.update (Message.FileSave (Except.error e))).1).is_dirty = s.is_dirty ∧
    ((s.update (Message.FileSave (Except.error e))).1).error = some e ∧
    ((s.update (Message.FileOpened (Except.error e))).1).content = s.content ∧
    ((s.update (Message.FileOpened (Except.error e))).1).path = s.path ∧
    ((s.update (Message.FileOpened (Except.error e))).1).error = some e ∧
    ((s.update (Message.FileOpened (Except.error e))).1).is_dirty = false :=
  ⟨rfl, rfl, rfl, rfl, rfl, rfl, rfl, rfl⟩

/-- C2 counterexample: the claim says a successful save clears
`last_error`, but processing `FileSave(Ok(path))` from a state holding
an error leaves the error in place. -/
theorem C2_counterexample :
    ioErrState.error = some (Error.IOFailed ErrorKind.notFound) ∧
    ((ioErrState.update (Message.FileSave (Except.ok "/tmp/a.txt"))).1).error
      = some (Error.IOFailed ErrorKind.notFound) :=
  ⟨rfl, rfl⟩

/-- C2 (amended): a successful open clears `last_error`; a successful
save leaves `last_error` unchanged (it does not clear it); a failure of
either category overwrites `last_error` with the new error; an `Edit`
intent never changes `last_error`. -/
theorem C2_error_lifecycle (s : Editor) (p q : PathBuf) (c : List Char)
    (e : Error) (a : Action) :
    ((s.update (Message.FileOpened (Except.ok (p, c)))).1).error = none ∧
    ((s.update (Message.FileSave (Except.ok q))).1).error = s.error ∧
    ((s.update (Message.FileSave (Except.error e))).1).error = some e ∧
    ((s.update (Message.FileOpened (Except.error e))).1).error = some e ∧
    ((s.update (Message.Edit a)).1).error = s.error :=
  ⟨rfl, rfl, rfl, rfl, rfl⟩

/-- C3: a successful load replaces the buffer with the file content
(fresh content, cursor at origin), sets the path, clears the error, and
leaves the dirty flag unchanged. -/
theorem C3_load_ok (s : Editor) (p : PathBuf) (c : List Char) :
    ((s.update (Message.FileOpened (Except.ok (p, c)))).1).content
      = Content.withText c ∧
    ((s.update (Message.FileOpened (Except.ok (p, c)))).1).path = some p ∧
    ((s.update (Message.FileOpened (Except.ok (p, c)))).1).error = none ∧
    ((s.update (Message.FileOpened (Except.ok (p, c)))).1).is_dirty
      = s.is_dirty :=
  ⟨rfl, rfl, rfl, rfl⟩

/-- C4: the `New` intent yields no path, an empty buffer, `is_dirty`
equal to the construction-time value of `Editor::new`, and no error. -/
theorem C4_new_intent (s : Editor) :
    ((s.update Message.New).1).path = none ∧
    ((s.update Message.New).1).content = Content.withText [] ∧
    ((s.update Message.New).1).is_dirty = (Editor.new).1.is_dirty ∧
    ((s.update Message.New).1).error = none :=
  ⟨rfl, rfl, rfl, rfl⟩

/-- C5: an `Edit` intent applies the action to the buffer; `is_dirty`
becomes `is_dirty || action.is_edit` (true after a content-changing
edit, unchanged after a pure cursor move); path and error are never
touched. -/
theorem C5_edit_intent (s : Editor) (a : Action) :
    ((s.update (Message.Edit a)).1).content = s.content.edit a ∧
    ((s.update (Message.Edit a)).1).is_dirty = (s.is_dirty || a.is_edit) ∧
    ((s.update (Message.Edit a)).1).path = s.path ∧
    ((s.update (Message.Edit a)).1).error = s.error :=
  ⟨rfl, rfl, rfl, rfl⟩

/-- C6: a successful save result sets `dirty = false` and
`path = Some(saved_path)` (so a save from a `None` path adopts the
path chosen in the dialog, and a save on an existing path keeps it);
`save_file` resolves the path accordingly. -/
theorem C6_save_ok (s : Editor) (p chosen : PathBuf) (t : List Char)
    (d : Option PathBuf) :
    ((s.update (Message.FileSave (Except.ok p))).1).is_dirty = false ∧
    ((s.update (Message.FileSave (Except.ok p))).1).path = some p ∧
    ((s.update (Message.FileSave (Except.ok p))).1).content = s.content ∧
    save_file none t (some chosen) none = Except.ok chosen ∧
    save_file (some p) t d none = Except.ok p :=
  ⟨rfl, rfl, rfl, rfl, rfl⟩

/-- C7 counterexample: the claim says dirty stays true until the next
successful save (or New/Open), but a failed open (`FileOpened(Err)`)
clears it: after a content-changing edit and then a failed open — no
successful save, no New, no Open — `is_dirty` is false. -/
theorem C7_counterexample :
    (Editor.processAll cleanAssocState
      [Message.Edit (Action.edit (EditOp.insert 'x'))]).is_dirty = true ∧
    (Editor.processAll cleanAssocState
      [Message.Edit (Action.edit (EditOp.insert 'x')),
       Message.FileOpened (Except.error Error.DialogClosed)]).is_dirty
      = false :=
  ⟨rfl, rfl⟩

/-- C7 (amended): a content-changing edit sets `dirty = true`, and it
remains true in every subsequent state until the next successful save
result (`FileSave(Ok)`) or failed open result (`FileOpened(Err)`); no
other message clears it. -/
theorem C7_dirty_persists (s : Editor) (a : Action) (ms : List Message)
    (ha : a.is_edit = true)
    (hms : ∀ m ∈ ms, m.clearsDirty = false) :
    ((s.update (Message.Edit a)).1).is_dirty = true ∧
    (Editor.processAll ((s.update (Message.Edit a)).1) ms).is_dirty = true := by
  have hdirty : ((s.update (Message.Edit a)).1).is_dirty = true := by
    simp [Editor.update, ha]
  exact ⟨hdirty, dirty_preserved_trace _ ms hdirty hms⟩

/-- C7 witness: concrete run of `C7_dirty_persists` — after inserting a
character in a clean state, a `New` intent later still leaves the state
dirty. -/
theorem C7_witness :
    ((cleanAssocState.update
        (Message.Edit (Action.edit (EditOp.insert 'x')))).1).is_dirty = true ∧
    (Editor.processAll
      ((cleanAssocState.update
        (Message.Edit (Action.edit (EditOp.insert 'x')))).1)
      [Message.New]).is_dirty = true :=
  C7_dirty_persists cleanAssocState (Action.edit (EditOp.insert 'x'))
    [Message.New] rfl
    (by intro m hm; rcases List.mem_singleton.mp hm with rfl; rfl)

/-- C8 counterexample: the claim says processing a dialog-closed result
is otherwise a no-op on Document State, but a cancelled open dialog
delivers `FileOpened(Err(DialogClosed))`, whose processing sets
`is_dirty` to false from a dirty state. -/
theorem C8_counterexample :
    pick_file none (Except.ok []) = Except.error Error.DialogClosed ∧
    dirtyNewState.is_dirty = true ∧
    ((dirtyNewState.update
      (Message.FileOpened (Except.error Error.DialogClosed))).1).is_dirty
      = false :=
  ⟨rfl, rfl, rfl⟩

/-- C8 (amended): cancelling either dialog delivers
`Err(DialogClosed)`; processing it as a save result sets `last_error`
and leaves buffer, path and dirty unchanged; processing it as an open
result sets `last_error` and leaves buffer and path unchanged but sets
`dirty` to false. -/
theorem C8_dialog_closed (s : Editor) (r : Except ErrorKind (List Char))
    (t : List Char) (w : Option ErrorKind) :
    pick_file none r = Except.error Error.DialogClosed ∧
    save_file none t none w = Except.error Error.DialogClosed ∧
    ((s.update (Message.FileSave (Except.error Error.DialogClosed))).1).content
      = s.content ∧
    ((s.update (Message.FileSave (Except.error Error.DialogClosed))).1).path
      = s.path ∧
    ((s.update (Message.FileSave (Except.error Error.DialogClosed))).1).is_dirty
      = s.is_dirty ∧
    ((s.update (Message.FileSave (Except.error Error.DialogClosed))).1).error
      = some Error.DialogClosed ∧
    ((s.update (Message.FileOpened (Except.error Error.DialogClosed))).1).content
      = s.content ∧
    ((s.update (Message.FileOpened (Except.error Error.DialogClosed))).1).path
      = s.path ∧
    ((s.update (Message.FileOpened (Except.error Error.DialogClosed))).1).error
      = some Error.DialogClosed ∧
    ((s.update (Message.FileOpened (Except.error Error.DialogClosed))).1).is_dirty
      = false :=
  ⟨rfl, rfl, rfl, rfl, rfl, rfl, rfl, rfl, rfl, rfl⟩

/-- C9 counterexample: the claim says any set error is shown instead of
the path, but with `last_error = Some(DialogClosed)` the status bar
still shows the path — only `IOFailed` errors are displayed. -/
theorem C9_counterexample :
    dialogErrState.error = some Error.DialogClosed ∧
    dialogErrState.status = Status.pathText "/tmp/a.txt" :=
  ⟨rfl, rfl⟩

/-- C9 (amended): the status display shows the error text exactly when
`last_error = Some(IOFailed(kind))`; when `last_error` is `None` or
`Some(DialogClosed)`, the path (or the new-file placeholder) is
shown. -/
theorem C9_status_bar (s : Editor) (k : ErrorKind) (p : PathBuf) :
    ({ s with error := some (Error.IOFailed k) } : Editor).status
      = Status.errorText k ∧
    ({ s with error := some Error.DialogClosed, path := some p } :
      Editor).status = Status.pathText p ∧
    ({ s with error := none, path := some p } : Editor).status
      = Status.pathText p ∧
    ({ s with error := none, path := none } : Editor).status
      = Status.newFilePlaceholder ∧
    ({ s with error := some Error.DialogClosed, path := none } :
      Editor).status = Status.newFilePlaceholder :=
  ⟨rfl, rfl, rfl, rfl, rfl⟩

/-- C10: the keyboard subscription ignores the editor state entirely,
maps cmd/ctrl+S to `Save` unconditionally, and the `Save` intent
schedules a write of the current buffer; the dirty gate applies only to
the save button, which is offered exactly when `is_dirty` is true. -/
theorem C10_shortcut_unconditional (s t : Editor) (key : KeyCode)
    (mods : Modifiers) :
    s.subscription key mods = t.subscription key mods ∧
    s.subscription KeyCode.S { command := true } = some Message.Save ∧
    s.update Message.Save = (s, Cmd.performSave s.path s.content.text) ∧
    ({ s with is_dirty := false } : Editor).save_button_message = none ∧
    ({ s with is_dirty := true } : Editor).save_button_message
      = some Message.Save :=
  ⟨rfl, rfl, rfl, rfl, rfl⟩

end TextEditor
